import Mathlib

/-!
Shallow embedding of the HC-15 LoRa driver (`src/lib/lora/lora_class.hpp`).

Arduino `String` values are modelled as `List Char`; the FreeRTOS binary
semaphore as a `Nat` count (0 or 1); the key (mode-select) GPIO as a `Bool`
(`true` = HIGH = transparent mode); the UART receive path as a `List Char`
stream of bytes that are already available; the busy-sense GPIO as a function
`Nat → Bool` from poll instants to the sampled busy state.  Each member
function of class `HC15` becomes a state-passing function; besides the fields
of the object, the state records a trace of the externally visible events
(semaphore takes/gives, key-pin writes, UART writes) so that locking and pin
discipline can be stated as predicates over the trace.
-/

/-- Externally visible events performed by a driver operation. -/
inductive Event where
  | take (ok : Bool)
  | give
  | pinW (high : Bool)
  | uartW (s : List Char)
deriving Repr, DecidableEq

/-- The mutable state of the `HC15` object together with the event trace.
`semCount` is the binary semaphore `hc15_buzy_semaphore_`, `pin` the key
pin level (`true` = HIGH), `serialOk` whether `serial_` is non-null,
`stream` the pending UART input, `readBuffer` the field `readBuffer`. -/
structure HCState where
  semCount : Nat
  pin : Bool
  serialOk : Bool
  stream : List Char
  readBuffer : List Char
  trace : List Event
deriving Repr, DecidableEq

/-- `xSemaphoreTake(hc15_buzy_semaphore_, …)`: succeeds iff the count is
positive (in the single-threaded model nobody gives while we block, so a
zero count means the bounded wait ends in a timeout). -/
def semTake (st : HCState) : Bool × HCState :=
  if st.semCount = 0 then
    (false, { st with trace := st.trace ++ [Event.take false] })
  else
    (true, { st with semCount := st.semCount - 1,
                     trace := st.trace ++ [Event.take true] })

/-- `xSemaphoreGive(hc15_buzy_semaphore_)`: a binary semaphore caps at 1. -/
def semGive (st : HCState) : HCState :=
  { st with semCount := 1, trace := st.trace ++ [Event.give] }

/-- Exit instant of the loop `while (millis() - time1 < timeout_ms && !isBuzy());`
starting from instant `t` with `fuel` polls left before the deadline: the
loop leaves at the first instant at which the module samples busy, or at the
deadline. -/
def loopExitFrom (busy : Nat → Bool) : Nat → Nat → Nat
  | t, 0 => t
  | t, fuel + 1 => if busy t then t else loopExitFrom busy (t + 1) fuel

/-- Exit instant of the busy-poll loop of `HC15::write`, polls starting at 0. -/
def loopExit (busy : Nat → Bool) (tmo : Nat) : Nat :=
  loopExitFrom busy 0 tmo

/-- `HC15::write(str, timeout_ms)`: spin while not busy and before the
deadline; abort (return 0) if busy at the loop exit; otherwise write the
bytes if the serial handle is set. -/
def hc15_write (busy : Nat → Bool) (tmoDefault : Nat) (s : List Char)
    (timeout_ms : Nat) (st : HCState) : Nat × HCState :=
  let tmo := if timeout_ms = 0 then tmoDefault else timeout_ms
  let te := loopExit busy tmo
  if busy te then (0, st)
  else if st.serialOk then
    (s.length, { st with trace := st.trace ++ [Event.uartW s] })
  else (0, st)

/-- `HC15::writeCommand`: drive the key pin LOW, write, drive it HIGH. -/
def writeCommand (busy : Nat → Bool) (tmoDefault : Nat) (s : List Char)
    (timeout_ms : Nat) (st : HCState) : Nat × HCState :=
  let st1 : HCState := { st with pin := false, trace := st.trace ++ [Event.pinW false] }
  let wr := hc15_write busy tmoDefault s timeout_ms st1
  (wr.1, { wr.2 with pin := true, trace := wr.2.trace ++ [Event.pinW true] })

/-- Index of the first `'\n'` or `'\r'` in a byte list, if any. -/
def findDelim : List Char → Option Nat
  | [] => none
  | c :: rest =>
    if c = '\n' ∨ c = '\r' then some 0
    else (findDelim rest).map (· + 1)

/-- Index of the first occurrence of `ch`, if any (Arduino `String::indexOf`). -/
def findChar (ch : Char) : List Char → Option Nat
  | [] => none
  | c :: rest => if c = ch then some 0 else (findChar ch rest).map (· + 1)

/-- Split off the first CR/LF-terminated line of a byte stream: the bytes
before the first delimiter, and the bytes after it.  With no delimiter the
whole stream is the (partial) line and nothing remains. -/
def splitLine (s : List Char) : List Char × List Char :=
  match findDelim s with
  | some i => (s.take i, s.drop (i + 1))
  | none => (s, [])

/-- `HC15::_expectLine(timeout_ms)`: accumulate bytes until the first CR or
LF (which is consumed and not returned); if the stream runs dry first, the
wait times out and the partial line accumulated so far is returned.  A zero
timeout means the loop body never runs. -/
def hc15_expectLine (timeout_ms : Nat) (st : HCState) : List Char × HCState :=
  if timeout_ms = 0 then ([], st)
  else
    let r := splitLine st.stream
    (r.1, { st with stream := r.2 })

/-- Inner loop of `HC15::_expectOK`: consume the stream byte by byte into
`line`; at each CR/LF compare the non-empty candidate line with
`expect` (exact `String` equality); an unmatched line is spilled into the
read buffer (`spill = true`) or discarded, and reading continues; stream
exhaustion is the timeout, which spills the partial line when requested.
Returns (matched, new read buffer, remaining stream). -/
def expectOKAux (expect : List Char) (spill : Bool) (line buf stream : List Char) :
    Bool × List Char × List Char :=
  match stream with
  | [] => (false, if spill ∧ line ≠ [] then buf ++ line else buf, [])
  | c :: rest =>
    if c = '\r' ∨ c = '\n' then
      if line = [] then expectOKAux expect spill [] buf rest
      else if line = expect then (true, buf, rest)
      else expectOKAux expect spill [] (if spill then buf ++ line ++ ['\n'] else buf) rest
    else expectOKAux expect spill (line ++ [c]) buf rest

/-- `HC15::_expectOK(expect_word, timeout_ms, spill_to_buf)`.  A zero
`timeout_ms` selects the member default `tmoDefault`; a zero effective
timeout makes the wait loop never run. -/
def hc15_expectOK (expect : List Char) (timeout_ms tmoDefault : Nat)
    (spill : Bool) (st : HCState) : Bool × HCState :=
  let tmo := if timeout_ms = 0 then tmoDefault else timeout_ms
  if tmo = 0 then (false, st)
  else
    let r := expectOKAux expect spill [] st.readBuffer st.stream
    (r.1, { st with readBuffer := r.2.1, stream := r.2.2 })

/-- `HC15::readLine()`: find the first `'\n'` (falling back to the first
`'\r'` only when there is no `'\n'`); return the prefix before it and drop
the prefix plus that one delimiter from the buffer; with no delimiter return
and clear the whole non-empty buffer; an empty buffer yields an empty line. -/
def hc15_readLine (st : HCState) : List Char × HCState :=
  let idx := match findChar '\n' st.readBuffer with
             | some i => some i
             | none => findChar '\r' st.readBuffer
  match idx with
  | some i =>
    (st.readBuffer.take i, { st with readBuffer := st.readBuffer.drop (i + 1) })
  | none =>
    if st.readBuffer = [] then ([], st)
    else (st.readBuffer, { st with readBuffer := [] })

/-- `HC15::channelConvertString(channel)`: three-character zero-padded
rendering for 1–50, `"028"` for everything else. -/
def channelConvertString (channel : Nat) : List Char :=
  if 1 ≤ channel ∧ channel < 10 then "00".data ++ (toString channel).data
  else if 10 ≤ channel ∧ channel ≤ 50 then "0".data ++ (toString channel).data
  else "028".data

/-- `HC15::test()`: write `AT` and expect the bare line `OK`; no semaphore. -/
def hc15_test (busy : Nat → Bool) (tmoDefault : Nat) (st : HCState) :
    Bool × HCState :=
  let wr := writeCommand busy tmoDefault "AT\r\n".data 0 st
  if wr.1 = 0 then (false, wr.2)
  else hc15_expectOK "OK".data 0 tmoDefault false wr.2

/-- `HC15::resetDefault()`. -/
def resetDefault (busy : Nat → Bool) (tmoDefault : Nat) (st : HCState) :
    Bool × HCState :=
  let t := semTake st
  if t.1 = false then (false, t.2)
  else
    let wr := writeCommand busy tmoDefault "AT+DEFAULT\r\n".data 0 t.2
    let e := if wr.1 = 0 then (false, wr.2)
             else hc15_expectOK "OK+DEFAULT".data 0 tmoDefault false wr.2
    (e.1, semGive e.2)

/-- Common skeleton of the get/set parameter members: take the semaphore
(10 s), send `cmd`, expect a line within `lineTmo`, check it starts with
`pfx`, and return the line with its first `dropN` characters removed
(`String::substring(dropN)`); each exit releases the semaphore it took. -/
def cmdQuery (cmd pfx : List Char) (dropN lineTmo : Nat) (busy : Nat → Bool)
    (tmoDefault : Nat) (st : HCState) : List Char × HCState :=
  let t := semTake st
  if t.1 = false then ("ERROR SEMAPHORE: TIMEOUT".data, t.2)
  else
    let wr := writeCommand busy tmoDefault cmd 0 t.2
    if wr.1 = 0 then ("WRITE COMMAND FAILED".data, semGive wr.2)
    else
      let e := hc15_expectLine lineTmo wr.2
      if pfx.isPrefixOf e.1 then (e.1.drop dropN, semGive e.2)
      else ("ERROR RESPONSE".data, semGive e.2)

/-- `HC15::getBaudRate(timeout_ms)`: prefix `OK+B:`, suffix from index 5. -/
def getBaudRate (busy : Nat → Bool) (tmoDefault timeout_ms : Nat)
    (st : HCState) : List Char × HCState :=
  cmdQuery "AT+B?\r\n".data "OK+B:".data 5 timeout_ms busy tmoDefault st

/-- `HC15::getParityBit()`: checks prefix `OK+PARITYBIT` (12 characters) but
returns `line.substring(15)`. -/
def getParityBit (busy : Nat → Bool) (tmoDefault : Nat) (st : HCState) :
    List Char × HCState :=
  cmdQuery "AT+PARITYBIT?\r\n".data "OK+PARITYBIT".data 15 5000 busy tmoDefault st

/-- `HC15::setParityBit(parity_bit, timeout_ms)`: validates the argument
against {"1","0","2"} before any I/O; on a matching reply returns
`line.substring(1)`. -/
def setParityBit (busy : Nat → Bool) (tmoDefault : Nat) (parity_bit : List Char)
    (timeout_ms : Nat) (st : HCState) : List Char × HCState :=
  if parity_bit = "1".data ∨ parity_bit = "0".data ∨ parity_bit = "2".data then
    cmdQuery ("AT+PARITYBIT".data ++ parity_bit ++ "\r\n".data)
      "OK+PARITYBIT".data 1 timeout_ms busy tmoDefault st
  else ("INVALID PARITY BIT".data, st)

/-- `HC15::getStopBit()`: prefix `OK+STOPBIT`, suffix from index 10. -/
def getStopBit (busy : Nat → Bool) (tmoDefault : Nat) (st : HCState) :
    List Char × HCState :=
  cmdQuery "AT+STOPBIT?\r\n".data "OK+STOPBIT".data 10 5000 busy tmoDefault st

/-- `HC15::setStopBit(stop_bit, timeout_ms)`: validates against {"1","2","3"}
before any I/O. -/
def setStopBit (busy : Nat → Bool) (tmoDefault : Nat) (stop_bit : List Char)
    (timeout_ms : Nat) (st : HCState) : List Char × HCState :=
  if stop_bit = "1".data ∨ stop_bit = "2".data ∨ stop_bit = "3".data then
    cmdQuery ("AT+STOPBIT".data ++ stop_bit ++ "\r\n".data)
      "OK+STOPBIT".data 10 timeout_ms busy tmoDefault st
  else ("INVALID STOP BIT".data, st)

/-- `HC15::getChannel()`: prefix `OK+C:`, suffix from index 5. -/
def getChannel (busy : Nat → Bool) (tmoDefault : Nat) (st : HCState) :
    List Char × HCState :=
  cmdQuery "AT+C?\r\n".data "OK+C:".data 5 5000 busy tmoDefault st

/-- `HC15::setChannel(channel, timeout_ms)`: range check 1–50 before any
I/O and before taking the semaphore. -/
def setChannel (busy : Nat → Bool) (tmoDefault : Nat) (channel timeout_ms : Nat)
    (st : HCState) : List Char × HCState :=
  if 1 ≤ channel ∧ channel ≤ 50 then
    cmdQuery ("AT+C".data ++ channelConvertString channel ++ "\r\n".data)
      "OK+C:".data 5 timeout_ms busy tmoDefault st
  else ("INVALID CHANNEL".data, st)

/-- `HC15::getSpeed()`: prefix `OK+S:`, suffix from index 5. -/
def getSpeed (busy : Nat → Bool) (tmoDefault : Nat) (st : HCState) :
    List Char × HCState :=
  cmdQuery "AT+S?\r\n".data "OK+S:".data 5 5000 busy tmoDefault st

/-- `HC15::setSpeed(speed, timeout_ms)`: range check 1–8 before any I/O;
note the source returns the string "INVALID CHANNEL" here as well. -/
def setSpeed (busy : Nat → Bool) (tmoDefault : Nat) (speed timeout_ms : Nat)
    (st : HCState) : List Char × HCState :=
  if 1 ≤ speed ∧ speed ≤ 8 then
    cmdQuery ("AT+S".data ++ channelConvertString speed ++ "\r\n".data)
      "OK+S:".data 5 timeout_ms busy tmoDefault st
  else ("INVALID CHANNEL".data, st)

/-- `struct HC15BasicParams` with the C integer fields widened to `Nat`/`Int`
(`baud : uint32_t`, `chan airSpd : uint8_t`, `txPwr : int8_t`). -/
structure HC15BasicParams where
  baud : Nat
  chan : Nat
  airSpd : Nat
  txPwr : Int
deriving Repr, DecidableEq

/-- Arduino `String::toInt` (atol): skip leading whitespace, optional sign,
then a maximal run of digits; anything else parses as 0. -/
def digitsVal : List Char → Nat → Nat
  | c :: cs, acc => if c.isDigit then digitsVal cs (acc * 10 + (c.toNat - 48)) else acc
  | [], acc => acc

/-- Arduino `String::toInt`. -/
def ardToInt (s : List Char) : Int :=
  let s1 := s.dropWhile (fun c => c = ' ' ∨ c = '\t' ∨ c = '\n' ∨ c = '\r')
  match s1 with
  | '-' :: rest => -(digitsVal rest 0 : Int)
  | '+' :: rest => (digitsVal rest 0 : Int)
  | _ => (digitsVal s1 0 : Int)

/-- Cast to `uint8_t`. -/
def toUInt8c (i : Int) : Nat := (i % 256).toNat

/-- Cast to `uint32_t`. -/
def toUInt32c (i : Int) : Nat := (i % 4294967296).toNat

/-- Cast to `int8_t` (two's complement wrap). -/
def toInt8c (i : Int) : Int :=
  let r := i % 256
  if r < 128 then r else r - 256

/-- `val.replace("dBm", "")`: remove every occurrence of `dBm`. -/
def removeDBm : List Char → List Char
  | 'd' :: 'B' :: 'm' :: rest => removeDBm rest
  | c :: rest => c :: removeDBm rest
  | [] => []

/-- One-line dispatch of `getBasicParams`: recognize the four `OK+` prefixes
and update the matching field, ignoring any other line. -/
def gbpUpdate (info : HC15BasicParams) (line : List Char) : HC15BasicParams :=
  if ("OK+B:".data).isPrefixOf line then
    { info with baud := toUInt32c (ardToInt (line.drop 5)) }
  else if ("OK+C:".data).isPrefixOf line then
    { info with chan := toUInt8c (ardToInt (line.drop 5)) }
  else if ("OK+S:".data).isPrefixOf line then
    { info with airSpd := toUInt8c (ardToInt (line.drop 5)) }
  else if ("OK+P:".data).isPrefixOf line then
    { info with txPwr := toInt8c (ardToInt (removeDBm (line.drop 5))) }
  else info

/-- The tail of the stream shrinks at every `splitLine` on a non-empty
stream, which bounds the `getBasicParams` line loop. -/
theorem splitLine_length_lt (c : Char) (cs : List Char) :
    ((splitLine (c :: cs)).2).length < (c :: cs).length := by
  unfold splitLine
  cases h : findDelim (c :: cs) with
  | none => simp
  | some i => simp [List.length_drop]; omega

/-- The line loop of `HC15::getBasicParams`: read lines with a 500 ms
per-line timeout until four non-empty lines were counted or the stream (and
hence every further `_expectLine`) yields nothing more before the overall
deadline; empty lines are skipped without counting. -/
def gbpLoop (linesGot : Nat) (info : HC15BasicParams) (stream : List Char) :
    HC15BasicParams × List Char :=
  match stream with
  | [] => (info, [])
  | c :: cs =>
    if 4 ≤ linesGot then (info, c :: cs)
    else
      let r := splitLine (c :: cs)
      if r.1 = [] then gbpLoop linesGot info r.2
      else gbpLoop (linesGot + 1) (gbpUpdate info r.1) r.2
termination_by stream.length
decreasing_by
  all_goals exact splitLine_length_lt _ _

/-- `HC15::getBasicParams(timeout_ms)`.  Note the write-failure branch of the
source returns without `xSemaphoreGive`. -/
def getBasicParams (busy : Nat → Bool) (tmoDefault timeout_ms : Nat)
    (st : HCState) : HC15BasicParams × HCState :=
  let info0 : HC15BasicParams := ⟨0, 0, 0, 0⟩
  let t := semTake st
  if t.1 = false then (info0, t.2)
  else
    let wr := writeCommand busy tmoDefault "AT+RX\r\n".data 0 t.2
    if wr.1 = 0 then (info0, wr.2)
    else if timeout_ms = 0 then (info0, semGive wr.2)
    else
      let r := gbpLoop 0 info0 wr.2.stream
      (r.1, semGive { wr.2 with stream := r.2 })

/-- Trace predicate: every UART write happens while the semaphore is held
(the running count of takes minus gives is positive). -/
def writesHeldOK : Nat → List Event → Bool
  | _, [] => true
  | held, Event.take true :: es => writesHeldOK (held + 1) es
  | held, Event.take false :: es => writesHeldOK held es
  | held, Event.give :: es => writesHeldOK (held - 1) es
  | held, Event.pinW _ :: es => writesHeldOK held es
  | held, Event.uartW _ :: es => decide (0 < held) && writesHeldOK held es

/-- Trace predicate: whenever the key pin is driven LOW, only UART writes
happen until it is driven HIGH again, and the trace never ends LOW. -/
def pinLowOnlyDuringWrite : Bool → List Event → Bool
  | low, [] => !low
  | false, Event.pinW false :: es => pinLowOnlyDuringWrite true es
  | false, Event.pinW true :: es => pinLowOnlyDuringWrite false es
  | false, Event.take _ :: es => pinLowOnlyDuringWrite false es
  | false, Event.give :: es => pinLowOnlyDuringWrite false es
  | false, Event.uartW _ :: es => pinLowOnlyDuringWrite false es
  | true, Event.pinW true :: es => pinLowOnlyDuringWrite false es
  | true, Event.uartW _ :: es => pinLowOnlyDuringWrite true es
  | true, Event.pinW false :: _ => false
  | true, Event.take _ :: _ => false
  | true, Event.give :: _ => false

/-- A fresh driver state: semaphore given (as `begin()` leaves it), key pin
HIGH, serial initialized, given UART input pending, empty buffer and trace. -/
def mkState (sem : Nat) (stream : List Char) : HCState :=
  { semCount := sem, pin := true, serialOk := true,
    stream := stream, readBuffer := [], trace := [] }

/-! ### Helper lemmas about the line-scanning primitives -/

theorem findDelim_cons (c : Char) (cs : List Char) :
    findDelim (c :: cs) =
      if c = '\n' ∨ c = '\r' then some 0 else (findDelim cs).map (· + 1) := rfl

theorem findDelim_none_cons (c : Char) (cs : List Char) :
    findDelim (c :: cs) = none ↔ (¬(c = '\n' ∨ c = '\r') ∧ findDelim cs = none) := by
  by_cases h : c = '\n' ∨ c = '\r'
  · simp [findDelim_cons, h]
  · simp [findDelim_cons, h, Option.map_eq_none']

theorem findDelim_append_none (l r : List Char) (h : findDelim l = none) :
    findDelim (l ++ r) = (findDelim r).map (· + l.length) := by
  induction l with
  | nil =>
    simp only [List.nil_append, List.length_nil]
    cases findDelim r <;> simp
  | cons c cs ih =>
    rw [findDelim_none_cons] at h
    simp only [List.cons_append]
    rw [findDelim_cons, if_neg h.1, ih h.2]
    cases findDelim r with
    | none => simp
    | some i =>
      simp only [Option.map_some', List.length_cons, Option.some.injEq]
      omega

theorem splitLine_append (l tail : List Char) (h : findDelim l = none) :
    splitLine (l ++ '\n' :: tail) = (l, tail) := by
  have h0 : findDelim ('\n' :: tail) = some 0 := by
    rw [findDelim_cons]; simp
  unfold splitLine
  rw [findDelim_append_none l ('\n' :: tail) h, h0]
  simp only [Option.map_some', Nat.zero_add, Prod.mk.injEq]
  refine ⟨List.take_left l ('\n' :: tail), ?_⟩
  have h2 : l ++ '\n' :: tail = (l ++ ['\n']) ++ tail := by simp
  rw [h2]
  exact List.drop_left' (by simp)

/-! ### Trace shapes of the command-issuing operations -/

theorem writesHeldOK_failTake : writesHeldOK 0 [Event.take false] = true := rfl

theorem writesHeldOK_noWrite :
    writesHeldOK 0 [Event.take true, Event.pinW false, Event.pinW true, Event.give] = true := rfl

theorem writesHeldOK_withWrite (cmd : List Char) :
    writesHeldOK 0 [Event.take true, Event.pinW false, Event.uartW cmd,
                    Event.pinW true, Event.give] = true := rfl

theorem writesHeldOK_leak :
    writesHeldOK 0 [Event.take true, Event.pinW false, Event.pinW true] = true := rfl

theorem writesHeldOK_leakWrite (cmd : List Char) :
    writesHeldOK 0 [Event.take true, Event.pinW false, Event.uartW cmd,
                    Event.pinW true] = true := rfl

theorem pinLow_failTake : pinLowOnlyDuringWrite false [Event.take false] = true := rfl

theorem pinLow_noWrite :
    pinLowOnlyDuringWrite false
      [Event.take true, Event.pinW false, Event.pinW true, Event.give] = true := rfl

theorem pinLow_withWrite (cmd : List Char) :
    pinLowOnlyDuringWrite false
      [Event.take true, Event.pinW false, Event.uartW cmd,
       Event.pinW true, Event.give] = true := rfl

theorem pinLow_leak :
    pinLowOnlyDuringWrite false
      [Event.take true, Event.pinW false, Event.pinW true] = true := rfl

theorem pinLow_leakWrite (cmd : List Char) :
    pinLowOnlyDuringWrite false
      [Event.take true, Event.pinW false, Event.uartW cmd, Event.pinW true] = true := rfl

theorem pinLow_noSem :
    pinLowOnlyDuringWrite false [Event.pinW false, Event.pinW true] = true := rfl

theorem pinLow_noSemWrite (cmd : List Char) :
    pinLowOnlyDuringWrite false
      [Event.pinW false, Event.uartW cmd, Event.pinW true] = true := rfl

/-- The state left behind by `cmdQuery` has one of three shapes: semaphore
wait timed out (one failed take, nothing else); take succeeded but the write
aborted (pin low/high, give); take succeeded, bytes written, give. -/
theorem cmdQuery_trace (cmd pfx : List Char) (dN lt : Nat) (busy : Nat → Bool)
    (tmo : Nat) (st : HCState) :
    ((cmdQuery cmd pfx dN lt busy tmo st).2.trace = st.trace ++ [Event.take false] ∧
     (cmdQuery cmd pfx dN lt busy tmo st).2.pin = st.pin ∧
     (cmdQuery cmd pfx dN lt busy tmo st).2.semCount = st.semCount) ∨
    ((cmdQuery cmd pfx dN lt busy tmo st).2.trace =
       st.trace ++ [Event.take true, Event.pinW false, Event.pinW true, Event.give] ∧
     (cmdQuery cmd pfx dN lt busy tmo st).2.pin = true ∧
     (cmdQuery cmd pfx dN lt busy tmo st).2.semCount = 1) ∨
    ((cmdQuery cmd pfx dN lt busy tmo st).2.trace =
       st.trace ++ [Event.take true, Event.pinW false, Event.uartW cmd,
                    Event.pinW true, Event.give] ∧
     (cmdQuery cmd pfx dN lt busy tmo st).2.pin = true ∧
     (cmdQuery cmd pfx dN lt busy tmo st).2.semCount = 1) := by
  unfold cmdQuery semTake writeCommand hc15_write hc15_expectLine semGive
  by_cases h1 : st.semCount = 0
  · simp [h1]
  · by_cases h2 : busy (loopExit busy tmo) = true
    · simp [h1, h2]
    · by_cases h3 : st.serialOk = true
      · by_cases h4 : cmd.length = 0
        · simp [h1, h2, h3, h4]
        · by_cases h5 : lt = 0
          · by_cases h6 : pfx.isPrefixOf [] = true <;>
              simp [h1, h2, h3, h4, h5, h6]
          · by_cases h6 : pfx.isPrefixOf (splitLine st.stream).1 = true <;>
              simp [h1, h2, h3, h4, h5, h6]
      · simp [h1, h2, h3]

/-- Trace shapes of `resetDefault` (same skeleton as the get/set members,
with `_expectOK` in place of `_expectLine`). -/
theorem resetDefault_trace (busy : Nat → Bool) (tmo : Nat) (st : HCState) :
    ((resetDefault busy tmo st).2.trace = st.trace ++ [Event.take false] ∧
     (resetDefault busy tmo st).2.pin = st.pin ∧
     (resetDefault busy tmo st).2.semCount = st.semCount) ∨
    ((resetDefault busy tmo st).2.trace =
       st.trace ++ [Event.take true, Event.pinW false, Event.pinW true, Event.give] ∧
     (resetDefault busy tmo st).2.pin = true ∧
     (resetDefault busy tmo st).2.semCount = 1) ∨
    ((resetDefault busy tmo st).2.trace =
       st.trace ++ [Event.take true, Event.pinW false, Event.uartW "AT+DEFAULT\r\n".data,
                    Event.pinW true, Event.give] ∧
     (resetDefault busy tmo st).2.pin = true ∧
     (resetDefault busy tmo st).2.semCount = 1) := by
  unfold resetDefault semTake writeCommand hc15_write hc15_expectOK semGive
  by_cases h1 : st.semCount = 0
  · simp [h1]
  · by_cases h2 : busy (loopExit busy tmo) = true
    · simp [h1, h2]
    · by_cases h3 : st.serialOk = true
      · by_cases h4 : tmo = 0
        · subst h4; simp [h1, h2, h3]
        · simp [h1, h2, h3, h4]
      · simp [h1, h2, h3]

/-- Trace shapes of `test()`: the key pin is toggled around the write, but no
semaphore event ever occurs. -/
theorem test_trace (busy : Nat → Bool) (tmo : Nat) (st : HCState) :
    ((hc15_test busy tmo st).2.trace =
       st.trace ++ [Event.pinW false, Event.pinW true] ∧
     (hc15_test busy tmo st).2.pin = true) ∨
    ((hc15_test busy tmo st).2.trace =
       st.trace ++ [Event.pinW false, Event.uartW "AT\r\n".data, Event.pinW true] ∧
     (hc15_test busy tmo st).2.pin = true) := by
  unfold hc15_test writeCommand hc15_write hc15_expectOK
  by_cases h2 : busy (loopExit busy tmo) = true
  · simp [h2]
  · by_cases h3 : st.serialOk = true
    · by_cases h4 : tmo = 0
      · subst h4; simp [h2, h3]
      · simp [h2, h3, h4]
    · simp [h2, h3]

/-- Trace shapes of `getBasicParams`: semaphore-wait timeout; write failure
(where the source returns WITHOUT releasing the semaphore — the count stays
decremented); and the read loop followed by a release. -/
theorem getBasicParams_trace (busy : Nat → Bool) (tmo tms : Nat) (st : HCState) :
    ((getBasicParams busy tmo tms st).2.trace = st.trace ++ [Event.take false] ∧
     (getBasicParams busy tmo tms st).2.pin = st.pin ∧
     (getBasicParams busy tmo tms st).2.semCount = st.semCount) ∨
    ((getBasicParams busy tmo tms st).2.trace =
       st.trace ++ [Event.take true, Event.pinW false, Event.pinW true] ∧
     (getBasicParams busy tmo tms st).2.pin = true ∧
     (getBasicParams busy tmo tms st).2.semCount = st.semCount - 1) ∨
    ((getBasicParams busy tmo tms st).2.trace =
       st.trace ++ [Event.take true, Event.pinW false, Event.uartW "AT+RX\r\n".data,
                    Event.pinW true, Event.give] ∧
     (getBasicParams busy tmo tms st).2.pin = true ∧
     (getBasicParams busy tmo tms st).2.semCount = 1) := by
  unfold getBasicParams semTake writeCommand hc15_write semGive
  by_cases h1 : st.semCount = 0
  · simp [h1]
  · by_cases h2 : busy (loopExit busy tmo) = true
    · simp [h1, h2]
    · by_cases h3 : st.serialOk = true
      · by_cases h4 : tms = 0 <;> simp [h1, h2, h3, h4]
      · simp [h1, h2, h3]

/-! ### Claim theorems -/

/-- C1: the claim says every exit path of every semaphore-taking operation
releases the semaphore exactly once, leaving the count unchanged.  The code
violates this in `getBasicParams`: when `writeCommand("AT+RX\r\n")` fails
(here: module busy at every poll) the function returns without
`xSemaphoreGive`, so a count of 1 before the call becomes 0 after it —
while the same failure in `getChannel` leaves the count at 1. -/
theorem C1_getBasicParams_semaphore_leak :
    (mkState 1 []).semCount = 1 ∧
    (getBasicParams (fun _ => true) 1 3000 (mkState 1 [])).2.semCount = 0 ∧
    (getChannel (fun _ => true) 1 (mkState 1 [])).2.semCount = 1 := by
  decide

/-- C2 counterexample: `test()` writes `AT` to the UART without ever taking
the semaphore; on a concrete run that reaches the write, the trace predicate
"every UART write happens while the token is held" is false. -/
theorem C2_test_writes_without_token :
    (hc15_test (fun _ => false) 1 (mkState 1 ("OK\r\n".data))).1 = true ∧
    writesHeldOK 0 (hc15_test (fun _ => false) 1 (mkState 1 ("OK\r\n".data))).2.trace
      = false := by
  decide

/-- C2 amended: every semaphore-taking operation (`resetDefault`, the
get/set parameter members and `getBasicParams`) writes to the transport only
while holding the semaphore, for every busy trace, timeout and state; the
plain self-test `test()` is excluded, as it takes no semaphore at all. -/
theorem C2_config_ops_write_only_with_token (busy : Nat → Bool)
    (tmo tms ch sp : Nat) (pb sb : List Char) (st : HCState)
    (htr : st.trace = []) :
    writesHeldOK 0 ((resetDefault busy tmo st).2.trace) = true ∧
    writesHeldOK 0 ((getBaudRate busy tmo tms st).2.trace) = true ∧
    writesHeldOK 0 ((getParityBit busy tmo st).2.trace) = true ∧
    writesHeldOK 0 ((setParityBit busy tmo pb tms st).2.trace) = true ∧
    writesHeldOK 0 ((getStopBit busy tmo st).2.trace) = true ∧
    writesHeldOK 0 ((setStopBit busy tmo sb tms st).2.trace) = true ∧
    writesHeldOK 0 ((getChannel busy tmo st).2.trace) = true ∧
    writesHeldOK 0 ((setChannel busy tmo ch tms st).2.trace) = true ∧
    writesHeldOK 0 ((getSpeed busy tmo st).2.trace) = true ∧
    writesHeldOK 0 ((setSpeed busy tmo sp tms st).2.trace) = true ∧
    writesHeldOK 0 ((getBasicParams busy tmo tms st).2.trace) = true := by
  have hq : ∀ (cmd pfx : List Char) (dN lt : Nat),
      writesHeldOK 0 ((cmdQuery cmd pfx dN lt busy tmo st).2.trace) = true := by
    intro cmd pfx dN lt
    rcases cmdQuery_trace cmd pfx dN lt busy tmo st with ⟨h, _⟩ | ⟨h, _⟩ | ⟨h, _⟩ <;>
      rw [h, htr, List.nil_append]
    · exact writesHeldOK_failTake
    · exact writesHeldOK_noWrite
    · exact writesHeldOK_withWrite cmd
  refine ⟨?_, hq _ _ _ _, hq _ _ _ _, ?_, hq _ _ _ _, ?_, hq _ _ _ _, ?_, hq _ _ _ _, ?_, ?_⟩
  · rcases resetDefault_trace busy tmo st with ⟨h, _⟩ | ⟨h, _⟩ | ⟨h, _⟩ <;>
      rw [h, htr, List.nil_append]
    · exact writesHeldOK_failTake
    · exact writesHeldOK_noWrite
    · exact writesHeldOK_withWrite _
  · unfold setParityBit
    split
    · exact hq _ _ _ _
    · rw [htr]; rfl
  · unfold setStopBit
    split
    · exact hq _ _ _ _
    · rw [htr]; rfl
  · unfold setChannel
    split
    · exact hq _ _ _ _
    · rw [htr]; rfl
  · unfold setSpeed
    split
    · exact hq _ _ _ _
    · rw [htr]; rfl
  · rcases getBasicParams_trace busy tmo tms st with ⟨h, _⟩ | ⟨h, _⟩ | ⟨h, _⟩ <;>
      rw [h, htr, List.nil_append]
    · exact writesHeldOK_failTake
    · exact writesHeldOK_leak
    · exact writesHeldOK_withWrite _

/-- C2 amended, witness: the amended theorem applied at a concrete state. -/
theorem C2_config_ops_write_only_with_token_witness :
    writesHeldOK 0 ((getChannel (fun _ => false) 1 (mkState 1 ("OK+C:023\n".data))).2.trace)
      = true :=
  (C2_config_ops_write_only_with_token (fun _ => false) 1 5000 7 3 ("0".data)
    ("1".data) (mkState 1 ("OK+C:023\n".data)) rfl).2.2.2.2.2.2.1

/-- C3: the claim (and the spec's `awaitIdle`) says `write` polls until the
module is IDLE or the deadline, writing only once idle.  The code's loop is
inverted: it spins while the module is idle and aborts as soon as it samples
busy.  Concretely, with a module that is busy at poll 0 and idle from poll 1
on (so the claimed behavior would wait one poll and then write), the code
returns 0 immediately; and with a module that is never busy the code writes
only after spinning through the entire deadline window. -/
theorem C3_write_busy_loop_inverted :
    (fun t => decide (t = 0)) 0 = true ∧
    (fun t => decide (t = 0)) 1 = false ∧
    (hc15_write (fun t => decide (t = 0)) 5000 ("AT\r\n".data) 10 (mkState 1 [])).1
      = 0 ∧
    (hc15_write (fun _ => false) 5000 ("AT\r\n".data) 10 (mkState 1 [])).1 = 4 := by
  decide

/-- C4: every command-issuing operation (including `test()`) leaves the key
(mode-select) pin HIGH — the transparent-mode state — when it returns, for
every busy trace, every timeout and every argument; and in each trace the
pin is LOW only around the UART write performed by `writeCommand`. -/
theorem C4_key_pin_restored (busy : Nat → Bool) (tmo tms ch sp : Nat)
    (pb sb : List Char) (st : HCState) (htr : st.trace = []) (hp : st.pin = true) :
    ((hc15_test busy tmo st).2.pin = true ∧
     pinLowOnlyDuringWrite false ((hc15_test busy tmo st).2.trace) = true) ∧
    ((resetDefault busy tmo st).2.pin = true ∧
     pinLowOnlyDuringWrite false ((resetDefault busy tmo st).2.trace) = true) ∧
    ((getBaudRate busy tmo tms st).2.pin = true ∧
     pinLowOnlyDuringWrite false ((getBaudRate busy tmo tms st).2.trace) = true) ∧
    ((getParityBit busy tmo st).2.pin = true ∧
     pinLowOnlyDuringWrite false ((getParityBit busy tmo st).2.trace) = true) ∧
    ((setParityBit busy tmo pb tms st).2.pin = true ∧
     pinLowOnlyDuringWrite false ((setParityBit busy tmo pb tms st).2.trace) = true) ∧
    ((getStopBit busy tmo st).2.pin = true ∧
     pinLowOnlyDuringWrite false ((getStopBit busy tmo st).2.trace) = true) ∧
    ((setStopBit busy tmo sb tms st).2.pin = true ∧
     pinLowOnlyDuringWrite false ((setStopBit busy tmo sb tms st).2.trace) = true) ∧
    ((getChannel busy tmo st).2.pin = true ∧
     pinLowOnlyDuringWrite false ((getChannel busy tmo st).2.trace) = true) ∧
    ((setChannel busy tmo ch tms st).2.pin = true ∧
     pinLowOnlyDuringWrite false ((setChannel busy tmo ch tms st).2.trace) = true) ∧
    ((getSpeed busy tmo st).2.pin = true ∧
     pinLowOnlyDuringWrite false ((getSpeed busy tmo st).2.trace) = true) ∧
    ((setSpeed busy tmo sp tms st).2.pin = true ∧
     pinLowOnlyDuringWrite false ((setSpeed busy tmo sp tms st).2.trace) = true) ∧
    ((getBasicParams busy tmo tms st).2.pin = true ∧
     pinLowOnlyDuringWrite false ((getBasicParams busy tmo tms st).2.trace) = true) := by
  have hq : ∀ (cmd pfx : List Char) (dN lt : Nat),
      (cmdQuery cmd pfx dN lt busy tmo st).2.pin = true ∧
      pinLowOnlyDuringWrite false ((cmdQuery cmd pfx dN lt busy tmo st).2.trace) = true := by
    intro cmd pfx dN lt
    rcases cmdQuery_trace cmd pfx dN lt busy tmo st with ⟨h, h2, _⟩ | ⟨h, h2, _⟩ | ⟨h, h2, _⟩ <;>
      rw [h, htr, List.nil_append]
    · exact ⟨h2.trans hp, pinLow_failTake⟩
    · exact ⟨h2, pinLow_noWrite⟩
    · exact ⟨h2, pinLow_withWrite cmd⟩
  refine ⟨?_, ?_, hq _ _ _ _, hq _ _ _ _, ?_, hq _ _ _ _, ?_, hq _ _ _ _, ?_,
          hq _ _ _ _, ?_, ?_⟩
  · rcases test_trace busy tmo st with ⟨h, h2⟩ | ⟨h, h2⟩ <;>
      rw [h, htr, List.nil_append]
    · exact ⟨h2, pinLow_noSem⟩
    · exact ⟨h2, pinLow_noSemWrite _⟩
  · rcases resetDefault_trace busy tmo st with ⟨h, h2, _⟩ | ⟨h, h2, _⟩ | ⟨h, h2, _⟩ <;>
      rw [h, htr, List.nil_append]
    · exact ⟨h2.trans hp, pinLow_failTake⟩
    · exact ⟨h2, pinLow_noWrite⟩
    · exact ⟨h2, pinLow_withWrite _⟩
  · unfold setParityBit
    split
    · exact hq _ _ _ _
    · rw [htr]; exact ⟨hp, rfl⟩
  · unfold setStopBit
    split
    · exact hq _ _ _ _
    · rw [htr]; exact ⟨hp, rfl⟩
  · unfold setChannel
    split
    · exact hq _ _ _ _
    · rw [htr]; exact ⟨hp, rfl⟩
  · unfold setSpeed
    split
    · exact hq _ _ _ _
    · rw [htr]; exact ⟨hp, rfl⟩
  · rcases getBasicParams_trace busy tmo tms st with ⟨h, h2, _⟩ | ⟨h, h2, _⟩ | ⟨h, h2, _⟩ <;>
      rw [h, htr, List.nil_append]
    · exact ⟨h2.trans hp, pinLow_failTake⟩
    · exact ⟨h2, pinLow_leak⟩
    · exact ⟨h2, pinLow_withWrite _⟩

/-- C4 witness: the mode-pin theorem applied at a concrete state. -/
theorem C4_key_pin_restored_witness :
    (hc15_test (fun _ => false) 1 (mkState 1 ("OK\r\n".data))).2.pin = true :=
  (C4_key_pin_restored (fun _ => false) 1 5000 7 3 ("0".data) ("1".data)
    (mkState 1 ("OK\r\n".data)) rfl rfl).1.1

/-- C5 counterexample: on buffer `"OK+C:023\r\nOK+S:003\r\n"` the first
`readLine()` does NOT yield `"OK+C:023"`: the scan looks for `'\n'` first,
so the returned line keeps the `'\r'` that precedes it. -/
theorem C5_readLine_keeps_carriage_return :
    (hc15_readLine { mkState 1 [] with
        readBuffer := "OK+C:023\r\nOK+S:003\r\n".data }).1 = "OK+C:023\r".data ∧
    (hc15_readLine { mkState 1 [] with
        readBuffer := "OK+C:023\r\nOK+S:003\r\n".data }).1 ≠ "OK+C:023".data := by
  decide

/-- C5 amended: `readLine()` scans for the first `'\n'` (falling back to the
first `'\r'` only when no `'\n'` exists) and removes only that one
delimiter, so a CRLF-terminated line is returned with its trailing CR: on
buffer `"OK+C:023\r\nOK+S:003\r\n"` two successive calls yield
`"OK+C:023\r"` then `"OK+S:003\r"` and a third yields empty; on unterminated
content `"partial"` one call yields `"partial"` and the next yields empty. -/
theorem C5_readLine_amended_behavior :
    ((hc15_readLine { mkState 1 [] with
        readBuffer := "OK+C:023\r\nOK+S:003\r\n".data }).1 = "OK+C:023\r".data ∧
     (hc15_readLine (hc15_readLine { mkState 1 [] with
        readBuffer := "OK+C:023\r\nOK+S:003\r\n".data }).2).1 = "OK+S:003\r".data ∧
     (hc15_readLine (hc15_readLine (hc15_readLine { mkState 1 [] with
        readBuffer := "OK+C:023\r\nOK+S:003\r\n".data }).2).2).1 = []) ∧
    ((hc15_readLine { mkState 1 [] with readBuffer := "partial".data }).1
        = "partial".data ∧
     (hc15_readLine (hc15_readLine { mkState 1 [] with
        readBuffer := "partial".data }).2).1 = []) := by
  decide

/-! ### Characterizations of the response-await step -/

theorem expectOKAux_cons (expect : List Char) (spill : Bool) (line buf : List Char)
    (c : Char) (rest : List Char) :
    expectOKAux expect spill line buf (c :: rest) =
      if c = '\r' ∨ c = '\n' then
        if line = [] then expectOKAux expect spill [] buf rest
        else if line = expect then (true, buf, rest)
        else expectOKAux expect spill []
               (if spill then buf ++ line ++ ['\n'] else buf) rest
      else expectOKAux expect spill (line ++ [c]) buf rest := rfl

theorem expectOKAux_accum (expect : List Char) (spill : Bool) (buf l : List Char)
    (h : findDelim l = none) :
    ∀ (line rest : List Char),
      expectOKAux expect spill line buf (l ++ rest) =
        expectOKAux expect spill (line ++ l) buf rest := by
  induction l with
  | nil => intro line rest; simp
  | cons c cs ih =>
    intro line rest
    rw [findDelim_none_cons] at h
    have hc : ¬(c = '\r' ∨ c = '\n') := fun hx => h.1 (hx.elim Or.inr Or.inl)
    simp only [List.cons_append]
    rw [expectOKAux_cons, if_neg hc, ih h.2 (line ++ [c]) rest]
    simp [List.append_assoc]

/-- One full line of the `_expectOK` loop: a delimiter-free non-empty line
followed by LF either matches exactly and stops, or is spilled/discarded and
the loop continues with the rest of the stream. -/
theorem expectOKAux_line (expect : List Char) (spill : Bool) (buf l tail : List Char)
    (h : findDelim l = none) (hne : l ≠ []) :
    expectOKAux expect spill [] buf (l ++ '\n' :: tail) =
      if l = expect then (true, buf, tail)
      else expectOKAux expect spill []
             (if spill then buf ++ l ++ ['\n'] else buf) tail := by
  rw [expectOKAux_accum expect spill buf l h [] ('\n' :: tail)]
  simp only [List.nil_append]
  rw [expectOKAux_cons]
  simp [hne]

/-! ### Characterizations of the command skeleton outcomes -/

theorem cmdQuery_semfail (cmd pfx : List Char) (dN lt : Nat) (busy : Nat → Bool)
    (tmo : Nat) (st : HCState) (hsem : st.semCount = 0) :
    cmdQuery cmd pfx dN lt busy tmo st =
      ("ERROR SEMAPHORE: TIMEOUT".data,
       { st with trace := st.trace ++ [Event.take false] }) := by
  unfold cmdQuery semTake
  simp [hsem]

theorem cmdQuery_busyfail (cmd pfx : List Char) (dN lt : Nat) (tmo : Nat)
    (st : HCState) (hsem : ¬ st.semCount = 0) :
    (cmdQuery cmd pfx dN lt (fun _ => true) tmo st).1
      = "WRITE COMMAND FAILED".data := by
  unfold cmdQuery semTake writeCommand hc15_write
  simp [hsem]

/-- With an always-idle module and an initialized serial port, the command
skeleton writes, reads the first line of the stream and decodes it. -/
theorem cmdQuery_run (cmd pfx : List Char) (dN lt tmo : Nat) (st : HCState)
    (hcmd : cmd ≠ []) (hlt : ¬ lt = 0) (hsem : ¬ st.semCount = 0)
    (hser : st.serialOk = true) :
    (cmdQuery cmd pfx dN lt (fun _ => false) tmo st).1 =
      (if pfx.isPrefixOf (splitLine st.stream).1 then (splitLine st.stream).1.drop dN
       else "ERROR RESPONSE".data) ∧
    (cmdQuery cmd pfx dN lt (fun _ => false) tmo st).2.stream
      = (splitLine st.stream).2 := by
  have hlen : ¬ cmd.length = 0 := by simpa [List.length_eq_zero] using hcmd
  unfold cmdQuery semTake writeCommand hc15_write hc15_expectLine semGive
  by_cases hpf : pfx.isPrefixOf (splitLine st.stream).1 = true
  · simp [hsem, hser, hlen, hlt, hpf]
  · simp [hsem, hser, hlen, hlt, hpf]

/-- Decoding a reply whose first line is the expected prefix followed by a
delimiter-free remainder: the skeleton returns the line with its first
`dN` characters removed. -/
theorem cmdQuery_decode (cmd pfx rest tail : List Char) (dN lt tmo : Nat)
    (hcmd : cmd ≠ []) (hlt : ¬ lt = 0) (hpfx : findDelim pfx = none)
    (hr : findDelim rest = none) :
    (cmdQuery cmd pfx dN lt (fun _ => false) tmo
        (mkState 1 ((pfx ++ rest) ++ '\n' :: tail))).1 = (pfx ++ rest).drop dN := by
  have hpr : findDelim (pfx ++ rest) = none := by
    rw [findDelim_append_none _ _ hpfx, hr]; rfl
  have h1 := (cmdQuery_run cmd pfx dN lt tmo (mkState 1 ((pfx ++ rest) ++ '\n' :: tail))
    hcmd hlt (by simp [mkState]) (by simp [mkState])).1
  have hs : (mkState 1 ((pfx ++ rest) ++ '\n' :: tail)).stream
      = (pfx ++ rest) ++ '\n' :: tail := rfl
  rw [h1, hs, splitLine_append _ _ hpr]
  simp [List.isPrefixOf_iff_prefix.mpr (List.prefix_append pfx rest)]

/-- A reply whose first line lacks the expected prefix decodes to the
unexpected-response outcome. -/
theorem cmdQuery_unexpected (cmd pfx junk tail : List Char) (dN lt tmo : Nat)
    (hcmd : cmd ≠ []) (hlt : ¬ lt = 0) (hj : findDelim junk = none)
    (hjp : pfx.isPrefixOf junk = false) :
    (cmdQuery cmd pfx dN lt (fun _ => false) tmo
        (mkState 1 (junk ++ '\n' :: tail))).1 = "ERROR RESPONSE".data := by
  have h1 := (cmdQuery_run cmd pfx dN lt tmo (mkState 1 (junk ++ '\n' :: tail))
    hcmd hlt (by simp [mkState]) (by simp [mkState])).1
  have hs : (mkState 1 (junk ++ '\n' :: tail)).stream = junk ++ '\n' :: tail := rfl
  rw [h1, hs, splitLine_append _ _ hj]
  simp [hjp]

/-- C6 counterexample: `setParityBit` does not strip exactly its checked
prefix `"OK+PARITYBIT"` (12 characters) from the matching reply
`"OK+PARITYBIT:0"` — removing the prefix would leave `":0"`, but the code
returns `line.substring(1)`, i.e. `"K+PARITYBIT:0"`. -/
theorem C6_setParityBit_strips_one_char :
    (setParityBit (fun _ => false) 1 ("0".data) 5000
        (mkState 1 ("OK+PARITYBIT:0\n".data))).1 = "K+PARITYBIT:0".data ∧
    "OK+PARITYBIT".data ++ ":0".data = "OK+PARITYBIT:0".data ∧
    "K+PARITYBIT:0".data ≠ ":0".data := by
  decide

/-- C6 amended: the channel, speed, baud-rate and stop-bit operations return
the reply line with exactly the checked prefix removed, and a line lacking
the prefix yields the unexpected-response outcome; but `getParityBit`
removes 15 characters although its checked prefix is 12 characters long
(dropping 3 characters of the payload), and `setParityBit` removes only the
first character of the line. -/
theorem C6_prefix_strip_amended (rest junk tail : List Char)
    (hr : findDelim rest = none) (hj : findDelim junk = none)
    (hjC : ("OK+C:".data).isPrefixOf junk = false) :
    (getChannel (fun _ => false) 1
        (mkState 1 (("OK+C:".data ++ rest) ++ '\n' :: tail))).1 = rest ∧
    (getSpeed (fun _ => false) 1
        (mkState 1 (("OK+S:".data ++ rest) ++ '\n' :: tail))).1 = rest ∧
    (getBaudRate (fun _ => false) 1 5000
        (mkState 1 (("OK+B:".data ++ rest) ++ '\n' :: tail))).1 = rest ∧
    (getStopBit (fun _ => false) 1
        (mkState 1 (("OK+STOPBIT".data ++ rest) ++ '\n' :: tail))).1 = rest ∧
    (setChannel (fun _ => false) 1 7 5000
        (mkState 1 (("OK+C:".data ++ rest) ++ '\n' :: tail))).1 = rest ∧
    (setSpeed (fun _ => false) 1 3 5000
        (mkState 1 (("OK+S:".data ++ rest) ++ '\n' :: tail))).1 = rest ∧
    (setStopBit (fun _ => false) 1 ("1".data) 5000
        (mkState 1 (("OK+STOPBIT".data ++ rest) ++ '\n' :: tail))).1 = rest ∧
    (getParityBit (fun _ => false) 1
        (mkState 1 (("OK+PARITYBIT".data ++ rest) ++ '\n' :: tail))).1
      = rest.drop 3 ∧
    (setParityBit (fun _ => false) 1 ("0".data) 5000
        (mkState 1 (("OK+PARITYBIT".data ++ rest) ++ '\n' :: tail))).1
      = ("OK+PARITYBIT".data ++ rest).drop 1 ∧
    (getChannel (fun _ => false) 1 (mkState 1 (junk ++ '\n' :: tail))).1
      = "ERROR RESPONSE".data := by
  refine ⟨?_, ?_, ?_, ?_, ?_, ?_, ?_, ?_, ?_, ?_⟩
  · exact (cmdQuery_decode _ _ rest tail 5 5000 1 (by decide) (by decide)
      (by decide) hr).trans (List.drop_left' rfl)
  · exact (cmdQuery_decode _ _ rest tail 5 5000 1 (by decide) (by decide)
      (by decide) hr).trans (List.drop_left' rfl)
  · exact (cmdQuery_decode _ _ rest tail 5 5000 1 (by decide) (by decide)
      (by decide) hr).trans (List.drop_left' rfl)
  · exact (cmdQuery_decode _ _ rest tail 10 5000 1 (by decide) (by decide)
      (by decide) hr).trans (List.drop_left' rfl)
  · unfold setChannel
    rw [if_pos (by decide : (1 : Nat) ≤ 7 ∧ 7 ≤ 50)]
    exact (cmdQuery_decode _ _ rest tail 5 5000 1 (by decide) (by decide)
      (by decide) hr).trans (List.drop_left' rfl)
  · unfold setSpeed
    rw [if_pos (by decide : (1 : Nat) ≤ 3 ∧ 3 ≤ 8)]
    exact (cmdQuery_decode _ _ rest tail 5 5000 1 (by decide) (by decide)
      (by decide) hr).trans (List.drop_left' rfl)
  · unfold setStopBit
    rw [if_pos (by decide :
          "1".data = "1".data ∨ "1".data = "2".data ∨ "1".data = "3".data)]
    exact (cmdQuery_decode _ _ rest tail 10 5000 1 (by decide) (by decide)
      (by decide) hr).trans (List.drop_left' rfl)
  · have h12 : ("OK+PARITYBIT".data).length = 12 := rfl
    have hd := @List.drop_append Char ("OK+PARITYBIT".data) rest 3
    rw [h12] at hd
    rw [(rfl : (12 + 3 : Nat) = 15)] at hd
    exact (cmdQuery_decode _ _ rest tail 15 5000 1 (by decide) (by decide)
      (by decide) hr).trans hd
  · unfold setParityBit
    rw [if_pos (Or.inr (Or.inl (by decide :
          ("0".data : List Char) = "0".data)))]
    exact cmdQuery_decode _ _ rest tail 1 5000 1 (by decide) (by decide)
      (by decide) hr
  · exact cmdQuery_unexpected _ _ junk tail 5 5000 1 (by decide) (by decide) hj hjC

/-- C6 amended, witness: the decode theorem applied at the concrete reply
`"OK+C:023"`. -/
theorem C6_prefix_strip_amended_witness :
    (getChannel (fun _ => false) 1
        (mkState 1 (("OK+C:".data ++ "023".data) ++ '\n' :: []))).1 = "023".data :=
  (C6_prefix_strip_amended "023".data "NOPE".data [] (by decide) (by decide)
    (by decide)).1

/-- Three-character zero-padded decimal rendering, as the spec words it. -/
def specPad3 (n : Nat) : List Char :=
  [Char.ofNat (48 + n / 100 % 10), Char.ofNat (48 + n / 10 % 10),
   Char.ofNat (48 + n % 10)]

/-- C7: for every channel in [1,50] (hence every speed in [1,8], which uses
the same encoder) the encoder yields the fixed 3-digit zero-padded decimal
field, and out-of-range arguments make `setChannel`/`setSpeed` return the
invalid-parameter outcome with the state untouched — no semaphore take, no
pin toggle, no UART write. -/
theorem C7_encode_and_reject (busy : Nat → Bool) (tmo tms : Nat) (st : HCState) :
    (∀ ch, ch < 51 → 1 ≤ ch → channelConvertString ch = specPad3 ch) ∧
    (∀ ch, ¬(1 ≤ ch ∧ ch ≤ 50) →
       setChannel busy tmo ch tms st = ("INVALID CHANNEL".data, st)) ∧
    (∀ sp, ¬(1 ≤ sp ∧ sp ≤ 8) →
       setSpeed busy tmo sp tms st = ("INVALID CHANNEL".data, st)) := by
  refine ⟨by decide, ?_, ?_⟩
  · intro ch h; unfold setChannel; rw [if_neg h]
  · intro sp h; unfold setSpeed; rw [if_neg h]

/-- C7 witness: concrete encodings and rejections. -/
theorem C7_encode_and_reject_witness :
    channelConvertString 7 = specPad3 7 ∧
    channelConvertString 23 = specPad3 23 ∧
    channelConvertString 50 = specPad3 50 ∧
    setChannel (fun _ => false) 1 51 5000 (mkState 1 [])
      = ("INVALID CHANNEL".data, mkState 1 []) ∧
    setSpeed (fun _ => false) 1 0 5000 (mkState 1 [])
      = ("INVALID CHANNEL".data, mkState 1 []) :=
  ⟨(C7_encode_and_reject (fun _ => false) 1 5000 (mkState 1 [])).1 7
      (by decide) (by decide),
   (C7_encode_and_reject (fun _ => false) 1 5000 (mkState 1 [])).1 23
      (by decide) (by decide),
   (C7_encode_and_reject (fun _ => false) 1 5000 (mkState 1 [])).1 50
      (by decide) (by decide),
   (C7_encode_and_reject (fun _ => false) 1 5000 (mkState 1 [])).2.1 51
      (by decide),
   (C7_encode_and_reject (fun _ => false) 1 5000 (mkState 1 [])).2.2 0
      (by decide)⟩

/-- Evaluating `_expectOK` on a fresh state with pending input `s`. -/
theorem expectOK_eval (expect : List Char) (spill : Bool) (s : List Char) :
    hc15_expectOK expect 0 5000 spill (mkState 1 s) =
      ((expectOKAux expect spill [] [] s).1,
       { mkState 1 s with readBuffer := (expectOKAux expect spill [] [] s).2.1,
                          stream := (expectOKAux expect spill [] [] s).2.2 }) := by
  unfold hc15_expectOK
  simp [mkState]

/-- C8 counterexample: the claim says the response wait "never continues past
the first of these events", so an unmatched-but-terminated line would end the
wait without a match.  The code continues reading: on input
`"ERR\r\nOK\r\n"` — whose first terminated line is `"ERR"`, not the expected
`"OK"` — `_expectOK("OK")` still returns a match. -/
theorem C8_wait_continues_past_unmatched_line :
    (splitLine ("ERR\r\nOK\r\n".data)).1 = "ERR".data ∧
    "ERR".data ≠ "OK".data ∧
    (hc15_expectOK "OK".data 0 5000 false
        (mkState 1 ("ERR\r\nOK\r\n".data))).1 = true := by
  decide

/-- C8 amended: bytes are read one at a time and accumulated into a line
terminated by CR or LF; the line is compared for exact equality with the
expected word; the wait ends at the first MATCH or at the timeout, while an
unmatched-but-terminated line is discarded (or spilled into the read buffer
when configured) and the wait continues with the next line; `_expectLine`
(used with a startsWith check by the parameterized-reply operations) stops
at the first terminated line regardless of its content. -/
theorem C8_response_await_amended (junk expect tail : List Char)
    (hj : findDelim junk = none) (hjne : junk ≠ []) (hjx : junk ≠ expect)
    (he : findDelim expect = none) (hene : expect ≠ []) :
    ((hc15_expectOK expect 0 5000 false
        (mkState 1 (expect ++ '\n' :: tail))).1 = true ∧
     (hc15_expectOK expect 0 5000 false
        (mkState 1 (expect ++ '\n' :: tail))).2.stream = tail) ∧
    ((hc15_expectOK expect 0 5000 false
        (mkState 1 (junk ++ '\n' :: (expect ++ '\n' :: tail)))).1 = true ∧
     (hc15_expectOK expect 0 5000 false
        (mkState 1 (junk ++ '\n' :: (expect ++ '\n' :: tail)))).2.readBuffer = []) ∧
    ((hc15_expectOK expect 0 5000 true
        (mkState 1 (junk ++ '\n' :: (expect ++ '\n' :: tail)))).1 = true ∧
     (hc15_expectOK expect 0 5000 true
        (mkState 1 (junk ++ '\n' :: (expect ++ '\n' :: tail)))).2.readBuffer
       = junk ++ ['\n']) ∧
    (hc15_expectOK expect 0 5000 false (mkState 1 (junk ++ ['\n']))).1 = false ∧
    (hc15_expectLine 5000 (mkState 1 (junk ++ '\n' :: tail))).1 = junk := by
  have hm : ∀ (spill : Bool) (buf : List Char),
      expectOKAux expect spill [] buf (expect ++ '\n' :: tail) = (true, buf, tail) := by
    intro spill buf
    rw [expectOKAux_line expect spill buf expect tail he hene, if_pos rfl]
  have hs : ∀ (spill : Bool) (buf : List Char),
      expectOKAux expect spill [] buf (junk ++ '\n' :: (expect ++ '\n' :: tail)) =
        (true, if spill then buf ++ junk ++ ['\n'] else buf, tail) := by
    intro spill buf
    rw [expectOKAux_line expect spill buf junk _ hj hjne, if_neg hjx, hm]
  have ht : expectOKAux expect false [] [] (junk ++ ['\n']) = (false, [], []) := by
    rw [expectOKAux_line expect false [] junk [] hj hjne, if_neg hjx]
    rfl
  refine ⟨⟨?_, ?_⟩, ⟨?_, ?_⟩, ⟨?_, ?_⟩, ?_, ?_⟩
  · rw [expectOK_eval, hm]
  · rw [expectOK_eval, hm]
  · rw [expectOK_eval, hs]
  · rw [expectOK_eval, hs]; simp
  · rw [expectOK_eval, hs]
  · rw [expectOK_eval, hs]; simp
  · rw [expectOK_eval, ht]
  · unfold hc15_expectLine
    rw [if_neg (by decide : ¬ (5000 : Nat) = 0)]
    have : (mkState 1 (junk ++ '\n' :: tail)).stream = junk ++ '\n' :: tail := rfl
    simp only [this, splitLine_append junk tail hj]

/-- C8 amended, witness: the amended response-await theorem at a concrete
unmatched line `"ERR"` followed by the match `"OK"`. -/
theorem C8_response_await_amended_witness :
    (hc15_expectOK "OK".data 0 5000 false
        (mkState 1 ("ERR".data ++ '\n' :: ("OK".data ++ '\n' :: [])))).1 = true :=
  (C8_response_await_amended "ERR".data "OK".data [] (by decide) (by decide)
    (by decide) (by decide) (by decide)).2.1.1

/-- C9 counterexample: a response timeout (empty stream, `_expectLine`
returns the empty partial line) and an unexpected response (`"GARBAGE"`)
both yield the SAME symbolic result `"ERROR RESPONSE"` from `getChannel`, so
the failure kinds are not pairwise distinguishable; and `getBasicParams`
reports a lock timeout only as the all-zero sentinel struct. -/
theorem C9_failure_outcomes_collide :
    (getChannel (fun _ => false) 1 (mkState 1 [])).1 = "ERROR RESPONSE".data ∧
    (getChannel (fun _ => false) 1 (mkState 1 ("GARBAGE\n".data))).1
      = "ERROR RESPONSE".data ∧
    (getBasicParams (fun _ => false) 1 3000 (mkState 0 [])).1 = ⟨0, 0, 0, 0⟩ := by
  decide

/-- C9 amended: lock timeout, write failure and response trouble map to the
three pairwise-distinct strings `"ERROR SEMAPHORE: TIMEOUT"`,
`"WRITE COMMAND FAILED"` and `"ERROR RESPONSE"` — but a response timeout and
an unexpected response share the single string `"ERROR RESPONSE"`, and
`getBasicParams` returns only the zero-sentinel struct on a lock timeout
(the incompleteness is logged to the console, not returned). -/
theorem C9_failure_outcomes_amended :
    (∀ st : HCState, st.semCount = 0 →
       (getChannel (fun _ => false) 1 st).1 = "ERROR SEMAPHORE: TIMEOUT".data) ∧
    (∀ st : HCState, ¬ st.semCount = 0 →
       (getChannel (fun _ => true) 1 st).1 = "WRITE COMMAND FAILED".data) ∧
    (∀ junk tail : List Char, findDelim junk = none →
       ("OK+C:".data).isPrefixOf junk = false →
       (getChannel (fun _ => false) 1 (mkState 1 (junk ++ '\n' :: tail))).1
         = "ERROR RESPONSE".data) ∧
    (getChannel (fun _ => false) 1 (mkState 1 [])).1 = "ERROR RESPONSE".data ∧
    ("ERROR SEMAPHORE: TIMEOUT".data ≠ "WRITE COMMAND FAILED".data ∧
     "ERROR SEMAPHORE: TIMEOUT".data ≠ "ERROR RESPONSE".data ∧
     "WRITE COMMAND FAILED".data ≠ "ERROR RESPONSE".data) ∧
    (∀ st : HCState, st.semCount = 0 →
       (getBasicParams (fun _ => false) 1 3000 st).1 = ⟨0, 0, 0, 0⟩) := by
  refine ⟨?_, ?_, ?_, by decide, by decide, ?_⟩
  · intro st h
    unfold getChannel
    rw [cmdQuery_semfail _ _ _ _ _ _ st h]
  · intro st h
    exact cmdQuery_busyfail _ _ _ _ _ st h
  · intro junk tail hj hp
    exact cmdQuery_unexpected _ _ junk tail 5 5000 1 (by decide) (by decide) hj hp
  · intro st h
    unfold getBasicParams semTake
    simp [h]

/-- C9 amended, witness: the amended theorem at a concrete locked-out state. -/
theorem C9_failure_outcomes_amended_witness :
    (getChannel (fun _ => false) 1 (mkState 0 [])).1
      = "ERROR SEMAPHORE: TIMEOUT".data :=
  C9_failure_outcomes_amended.1 (mkState 0 []) rfl

/-- The four reply prefixes `getBasicParams` recognizes. -/
def recognizedGBP (l : List Char) : Bool :=
  ("OK+B:".data).isPrefixOf l || ("OK+C:".data).isPrefixOf l ||
  ("OK+S:".data).isPrefixOf l || ("OK+P:".data).isPrefixOf l

theorem gbpUpdate_unrecognized (info : HC15BasicParams) (l : List Char)
    (h : recognizedGBP l = false) : gbpUpdate info l = info := by
  unfold recognizedGBP at h
  simp only [Bool.or_eq_false_iff] at h
  obtain ⟨⟨⟨h1, h2⟩, h3⟩, h4⟩ := h
  unfold gbpUpdate
  simp [h1, h2, h3, h4]

/-- One iteration of the `getBasicParams` line loop on a non-empty
delimiter-free line: the line is counted and dispatched. -/
theorem gbpLoop_step (n : Nat) (info : HC15BasicParams) (l tail : List Char)
    (hl : l ≠ []) (hd : findDelim l = none) (hn : n < 4) :
    gbpLoop n info (l ++ '\n' :: tail) = gbpLoop (n + 1) (gbpUpdate info l) tail := by
  cases l with
  | nil => exact absurd rfl hl
  | cons c cs =>
    have hs : splitLine ((c :: cs) ++ '\n' :: tail) = (c :: cs, tail) :=
      splitLine_append _ _ hd
    rw [List.cons_append] at hs ⊢
    rw [gbpLoop]
    have h4 : ¬ 4 ≤ n := by omega
    rw [if_neg h4, hs]
    simp

/-- After four counted lines, the loop stops and leaves the rest of the
stream unread. -/
theorem gbpLoop_full (info : HC15BasicParams) (s : List Char) :
    gbpLoop 4 info s = (info, s) := by
  cases s with
  | nil => rw [gbpLoop]
  | cons c cs => rw [gbpLoop]; simp

/-- Evaluating `getBasicParams` on a fresh state with pending input `s`,
an always-idle module and an initialized serial port: the result and the
leftover stream are those of the line loop. -/
theorem getBasicParams_run (tmo : Nat) (s : List Char) :
    (getBasicParams (fun _ => false) tmo 3000 (mkState 1 s)).1
      = (gbpLoop 0 ⟨0, 0, 0, 0⟩ s).1 ∧
    (getBasicParams (fun _ => false) tmo 3000 (mkState 1 s)).2.stream
      = (gbpLoop 0 ⟨0, 0, 0, 0⟩ s).2 := by
  unfold getBasicParams semTake writeCommand hc15_write semGive
  simp [mkState]

/-- C10: `getBasicParams` counts EVERY non-empty line toward its limit of 4,
whether or not it matches a recognized prefix: four delimiter-free,
non-empty, unrecognized lines exhaust the loop, every field stays at its
zero sentinel, and whatever follows (here possibly a genuine `OK+` line) is
left unread in the stream. -/
theorem C10_unrecognized_lines_counted (l1 l2 l3 l4 tail : List Char)
    (h1 : l1 ≠ []) (hd1 : findDelim l1 = none) (hr1 : recognizedGBP l1 = false)
    (h2 : l2 ≠ []) (hd2 : findDelim l2 = none) (hr2 : recognizedGBP l2 = false)
    (h3 : l3 ≠ []) (hd3 : findDelim l3 = none) (hr3 : recognizedGBP l3 = false)
    (h4 : l4 ≠ []) (hd4 : findDelim l4 = none) (hr4 : recognizedGBP l4 = false) :
    (getBasicParams (fun _ => false) 1 3000
        (mkState 1 (l1 ++ '\n' :: (l2 ++ '\n' :: (l3 ++ '\n' :: (l4 ++ '\n' :: tail)))))).1
      = ⟨0, 0, 0, 0⟩ ∧
    (getBasicParams (fun _ => false) 1 3000
        (mkState 1 (l1 ++ '\n' :: (l2 ++ '\n' :: (l3 ++ '\n' :: (l4 ++ '\n' :: tail)))))).2.stream
      = tail := by
  have hloop : gbpLoop 0 ⟨0, 0, 0, 0⟩
      (l1 ++ '\n' :: (l2 ++ '\n' :: (l3 ++ '\n' :: (l4 ++ '\n' :: tail))))
      = (⟨0, 0, 0, 0⟩, tail) := by
    rw [gbpLoop_step 0 _ l1 _ h1 hd1 (by omega), gbpUpdate_unrecognized _ _ hr1,
        gbpLoop_step 1 _ l2 _ h2 hd2 (by omega), gbpUpdate_unrecognized _ _ hr2,
        gbpLoop_step 2 _ l3 _ h3 hd3 (by omega), gbpUpdate_unrecognized _ _ hr3,
        gbpLoop_step 3 _ l4 _ h4 hd4 (by omega), gbpUpdate_unrecognized _ _ hr4,
        gbpLoop_full]
  refine ⟨?_, ?_⟩
  · rw [(getBasicParams_run 1 _).1, hloop]
  · rw [(getBasicParams_run 1 _).2, hloop]

/-- C10 witness: four unrecognized lines `"AAA"` … `"DDD"` ahead of a
genuine `"OK+B:9600"` line leave all fields zero and the genuine line
unread. -/
theorem C10_unrecognized_lines_counted_witness :
    (getBasicParams (fun _ => false) 1 3000
        (mkState 1 ("AAA".data ++ '\n' :: ("BBB".data ++ '\n' ::
          ("CCC".data ++ '\n' :: ("DDD".data ++ '\n' :: "OK+B:9600\n".data)))))).1
      = ⟨0, 0, 0, 0⟩ :=
  (C10_unrecognized_lines_counted "AAA".data "BBB".data "CCC".data "DDD".data
    ("OK+B:9600\n".data)
    (by decide) (by decide) (by decide) (by decide) (by decide) (by decide)
    (by decide) (by decide) (by decide) (by decide) (by decide) (by decide)).1
